import Mathlib

/-!
Verification of the datagen image-effect scripts.

The repository consists of three Python scripts:
  * `main.py`            — single-file photocopy transformer (CLI)
  * `main_fax.py`        — fax transformer plus a batch driver `process_folder`
  * `main_photocopy.py`  — photocopy transformer plus a batch driver `process_folder`

This file gives a shallow embedding of their data model and control flow:
  * a service `Response` is a list of candidates, each holding a content with
    an ordered list of parts; a part optionally carries inline binary data;
  * the transformer (`add_fax_artifacts` / `add_photocopy_artifacts`) is a
    pure function of an environment recording the outcome of each effectful
    step (input image load, remote call, decoding of returned bytes); it
    returns the overall outcome together with the list of file writes it
    performs (saving the decoded image is modelled as always succeeding);
  * the batch driver (`process_folder`) is a pure function of a folder state
    (existence, directory-ness, entry listing) and a per-file transformer
    environment; it returns the Python return value, the list of transformer
    invocations, the accumulated writes, and whether the output directory
    was created;
  * `pathlib`'s `suffix` / `stem` and `os.path.splitext` are modelled
    character-exactly on the string of the path.
-/

namespace Datagen

/-- Inline binary payload bytes, modelled as a list of byte values. -/
abbrev Bytes := List Nat

/-- A decoded image, modelled as an opaque token. -/
abbrev Img := Nat

/-- A response part: optionally carries inline binary data, optionally text
(`part.inline_data` / `part.text` in the genai response). -/
structure Part where
  inline_data : Option Bytes
  text : Option String
deriving DecidableEq, Repr

/-- `candidate.content`: holds the ordered list of parts. -/
structure Content where
  parts : List Part
deriving DecidableEq, Repr

/-- A response candidate. -/
structure Candidate where
  content : Content
deriving DecidableEq, Repr

/-- A service response: `response.candidates`. -/
structure Response where
  candidates : List Candidate
deriving DecidableEq, Repr

/-- Outcome of `Image.open` on the input path inside the inner `try`:
`FileNotFoundError`, any other exception, or a successfully loaded image
(already converted to RGB; the conversion is not observable here). -/
inductive LoadResult where
  | notFound
  | loadError
  | ok (img : Img)
deriving DecidableEq, Repr

/-- The distinct console reports the transformer can end with, one per
control-flow exit of `add_photocopy_artifacts` / `add_fax_artifacts`. -/
inductive Outcome where
  | savedImage
  | inputNotFound
  | inputLoadError
  | noImageFound
  | noCandidates
  | unexpectedError
deriving DecidableEq, Repr

/-- Environment of one transformer call: the result of loading the input
image, the result of the `generate_content` call (`Except.error` models any
exception raised by the client), and the behaviour of `Image.open` on the
returned inline bytes (`none` models a decoding exception). -/
structure TransformEnv where
  load : LoadResult
  call : Except String Response
  decode : Bytes → Option Img

/-- The `for part in response.candidates[0].content.parts` loop of both
transformers: the first part with `inline_data` not `None` is decoded and
saved (then the loop breaks); a decoding exception escapes to the outer
handler; if no part carries inline data the failure is reported. -/
def scan_parts (decode : Bytes → Option Img) (output_image_path : String) :
    List Part → Outcome × List (String × Img)
  | [] => (Outcome.noImageFound, [])
  | p :: rest =>
    match p.inline_data with
    | some b =>
      match decode b with
      | some img => (Outcome.savedImage, [(output_image_path, img)])
      | none => (Outcome.unexpectedError, [])
    | none => scan_parts decode output_image_path rest

/-- `add_fax_artifacts` of `main_fax.py`: load the input image, call the
service, then scan the first candidate's parts for inline data. Returns the
outcome and the list of files written. -/
def add_fax_artifacts (env : TransformEnv)
    (input_image_path output_image_path : String) :
    Outcome × List (String × Img) :=
  match env.load with
  | LoadResult.notFound => (Outcome.inputNotFound, [])
  | LoadResult.loadError => (Outcome.inputLoadError, [])
  | LoadResult.ok _img =>
    match env.call with
    | Except.error _e => (Outcome.unexpectedError, [])
    | Except.ok response =>
      match response.candidates with
      | [] => (Outcome.noCandidates, [])
      | cand :: _ =>
        match cand.content.parts with
        | [] => (Outcome.noCandidates, [])
        | p :: rest => scan_parts env.decode output_image_path (p :: rest)

/-- `add_photocopy_artifacts` of `main.py` / `main_photocopy.py`: identical
control flow to `add_fax_artifacts`, differing only in the prompt text. -/
def add_photocopy_artifacts (env : TransformEnv)
    (input_image_path output_image_path : String) :
    Outcome × List (String × Img) :=
  match env.load with
  | LoadResult.notFound => (Outcome.inputNotFound, [])
  | LoadResult.loadError => (Outcome.inputLoadError, [])
  | LoadResult.ok _img =>
    match env.call with
    | Except.error _e => (Outcome.unexpectedError, [])
    | Except.ok response =>
      match response.candidates with
      | [] => (Outcome.noCandidates, [])
      | cand :: _ =>
        match cand.content.parts with
        | [] => (Outcome.noCandidates, [])
        | p :: rest => scan_parts env.decode output_image_path (p :: rest)

/-- Index of the last occurrence of a character in a character list
(Python's `str.rfind`, restricted to single characters). -/
def lastIdxOf (c : Char) : List Char → Option Nat
  | [] => none
  | a :: as =>
    match lastIdxOf c as with
    | some i => some (i + 1)
    | none => if a = c then some 0 else none

/-- `pathlib.PurePath.suffix` on a file name: the part of the name from the
last dot on, but empty unless that dot is strictly inside the name
(`0 < i < len - 1`). -/
def pySuffix (name : String) : String :=
  let cs := name.data
  match lastIdxOf '.' cs with
  | some i => if 0 < i ∧ i + 1 < cs.length then String.mk (cs.drop i) else ""
  | none => ""

/-- `pathlib.PurePath.stem` on a file name: the name up to (and excluding)
the suffix dot, or the whole name when the suffix is empty. -/
def pyStem (name : String) : String :=
  let cs := name.data
  match lastIdxOf '.' cs with
  | some i => if 0 < i ∧ i + 1 < cs.length then String.mk (cs.take i) else name
  | none => name

/-- Python `str.lower`, restricted to the ASCII range (sufficient for the
extension strings handled here). -/
def pyLower (s : String) : String :=
  String.mk (s.data.map Char.toLower)

/-- `os.path.splitext` (POSIX): split at the last dot of the final path
component, unless every character between the last separator and that dot
is itself a dot (leading-dot names are not split). -/
def splitext (p : String) : String × String :=
  let cs := p.data
  match lastIdxOf '.' cs with
  | none => (p, "")
  | some d =>
    let start : Nat :=
      match lastIdxOf '/' cs with
      | none => 0
      | some s2 => s2 + 1
    if start ≤ d then
      if ((cs.drop start).take (d - start)).any (fun c => c ≠ '.') then
        (String.mk (cs.take d), String.mk (cs.drop d))
      else (p, "")
    else (p, "")

/-- The fixed extension set of both batch drivers. -/
def image_extensions : List String :=
  [".jpg", ".jpeg", ".png", ".bmp", ".tiff", ".tif", ".webp"]

/-- A directory entry as seen by `Path.iterdir`: its name and whether
`is_file()` holds. -/
structure Entry where
  name : String
  is_file : Bool
deriving DecidableEq, Repr

/-- The filter condition of the batch drivers:
`file_path.is_file() and file_path.suffix.lower() in image_extensions`. -/
def is_image_entry (e : Entry) : Bool :=
  e.is_file && image_extensions.contains (pyLower (pySuffix e.name))

/-- The `image_files` accumulation loop of `process_folder`: append each
entry passing the filter, in listing order. -/
def select_images (entries : List Entry) : List Entry :=
  entries.foldl (fun acc e => if is_image_entry e then acc ++ [e] else acc) []

/-- State of the input folder: whether `input_path.exists()`,
`input_path.is_dir()`, and the listing returned by `iterdir`. -/
structure FolderState where
  input_exists : Bool
  input_is_dir : Bool
  entries : List Entry
deriving Repr

/-- Observable result of a `process_folder` run: the Python return value,
the (input, output) path pairs passed to the transformer in order, all file
writes performed by those calls, whether `output_path.mkdir` was reached,
and whether the invalid-input error was reported. -/
structure BatchResult where
  retval : Option Nat
  calls : List (String × String)
  writes : List (String × Img)
  mkdir_output : Bool
  invalid_input_reported : Bool
deriving DecidableEq, Repr

/-- `output_path / name` (POSIX join of a directory and a file name). -/
def joinPath (dir name : String) : String := dir ++ "/" ++ name

/-- Output name derivation of `main_fax.py`'s batch loop:
`f"\x7bfile_name\x7d_fax_effect\x7bfile_extension\x7d"` over `stem`/`suffix`. -/
def fax_output_filename (name : String) : String :=
  pyStem name ++ "_fax_effect" ++ pySuffix name

/-- Output name derivation of `main_photocopy.py`'s batch loop:
`f"\x7bfile_name\x7d_photocopy\x7bfile_extension\x7d"` over `stem`/`suffix`. -/
def photocopy_output_filename (name : String) : String :=
  pyStem name ++ "_photocopy" ++ pySuffix name

/-- Output name derivation of `main.py`'s `__main__` block:
`os.path.splitext` then `f"\x7bfile_name\x7d_photocopy_effect\x7bfile_extension\x7d"`. -/
def photocopy_single_output (input_img : String) : String :=
  let fe := splitext input_img
  fe.1 ++ "_photocopy_effect" ++ fe.2

/-- `process_folder` of `main_fax.py`. The per-file environment is looked up
by the string passed as the transformer's input path. The Python function
always returns `None`, recorded in `retval`. -/
def process_folder_fax (env : String → TransformEnv) (fs : FolderState)
    (input_folder output_folder : String) : BatchResult :=
  if !fs.input_exists || !fs.input_is_dir then
    { retval := none, calls := [], writes := [], mkdir_output := false,
      invalid_input_reported := true }
  else
    let image_files := select_images fs.entries
    if image_files.isEmpty then
      { retval := none, calls := [], writes := [], mkdir_output := true,
        invalid_input_reported := false }
    else
      let res := image_files.foldl
        (fun (acc : List (String × String) × List (String × Img)) e =>
          let input_file := joinPath input_folder e.name
          let output_file := joinPath output_folder (fax_output_filename e.name)
          let r := add_fax_artifacts (env input_file) input_file output_file
          (acc.1 ++ [(input_file, output_file)], acc.2 ++ r.2))
        ([], [])
      { retval := none, calls := res.1, writes := res.2, mkdir_output := true,
        invalid_input_reported := false }

/-- `process_folder` of `main_photocopy.py`: identical orchestration, with
the `_photocopy` suffix and the photocopy transformer. -/
def process_folder_photocopy (env : String → TransformEnv) (fs : FolderState)
    (input_folder output_folder : String) : BatchResult :=
  if !fs.input_exists || !fs.input_is_dir then
    { retval := none, calls := [], writes := [], mkdir_output := false,
      invalid_input_reported := true }
  else
    let image_files := select_images fs.entries
    if image_files.isEmpty then
      { retval := none, calls := [], writes := [], mkdir_output := true,
        invalid_input_reported := false }
    else
      let res := image_files.foldl
        (fun (acc : List (String × String) × List (String × Img)) e =>
          let input_file := joinPath input_folder e.name
          let output_file := joinPath output_folder (photocopy_output_filename e.name)
          let r := add_photocopy_artifacts (env input_file) input_file output_file
          (acc.1 ++ [(input_file, output_file)], acc.2 ++ r.2))
        ([], [])
      { retval := none, calls := res.1, writes := res.2, mkdir_output := true,
        invalid_input_reported := false }

/-- The startup check of all three scripts:
`api_key = os.getenv("GEMINI_API_KEY"); if not api_key: raise ValueError(...)`.
Returns `true` when the process raises. `not` on a Python string is true
exactly for the empty string, and `not None` is true. -/
def api_key_check_raises (v : Option String) : Bool :=
  match v with
  | none => true
  | some s => s == ""

/-! Concrete fixtures used by witnesses and closed instances. -/

/-- A per-file environment where every step fails (input file missing). -/
def envFail : String → TransformEnv := fun _ =>
  { load := LoadResult.notFound, call := Except.error "boom",
    decode := fun _ => none }

/-- A text-only part. -/
def textPart : Part := { inline_data := none, text := some "hello" }

/-- A part carrying inline bytes `[1, 2]`. -/
def imgPart : Part := { inline_data := some [1, 2], text := none }

/-- A later inline part that must be ignored. -/
def extraPart : Part := { inline_data := some [3], text := none }

/-- A response whose first candidate holds a text part, then two inline
parts. -/
def respW : Response :=
  { candidates := [{ content := { parts := [textPart, imgPart, extraPart] } }] }

/-- Environment for a successful call returning `respW`; bytes `[1, 2]`
decode to image `42`, anything else to image `99`. -/
def envInline : TransformEnv :=
  { load := LoadResult.ok 7, call := Except.ok respW,
    decode := fun b => if b = [1, 2] then some 42 else some 99 }

/-- Folder with a single upper-case-extension image file. -/
def fsPhoto : FolderState :=
  { input_exists := true, input_is_dir := true,
    entries := [{ name := "photo.JPG", is_file := true }] }

/-- Folder with one image file and one `.txt` file. -/
def fsMix : FolderState :=
  { input_exists := true, input_is_dir := true,
    entries := [{ name := "photo.JPG", is_file := true },
                { name := "notes.txt", is_file := true }] }

/-- A nonexistent input folder. -/
def fsMissing : FolderState :=
  { input_exists := false, input_is_dir := false, entries := [] }

/-- Folder with two image files. -/
def fsTwo : FolderState :=
  { input_exists := true, input_is_dir := true,
    entries := [{ name := "a.jpg", is_file := true },
                { name := "b.PNG", is_file := true }] }

/-- Folder whose only entry is a regular file literally named `.jpg`. -/
def fsDot : FolderState :=
  { input_exists := true, input_is_dir := true,
    entries := [{ name := ".jpg", is_file := true }] }

end Datagen

namespace Datagen

/-- Both transformers have syntactically identical bodies. -/
theorem add_photocopy_eq_add_fax : add_photocopy_artifacts = add_fax_artifacts := rfl

/-- Parts without inline data are skipped by the scanning loop. -/
theorem scan_parts_skip (d : Bytes → Option Img) (o : String)
    (pre rest : List Part) (h : ∀ q ∈ pre, q.inline_data = none) :
    scan_parts d o (pre ++ rest) = scan_parts d o rest := by
  induction pre with
  | nil => rfl
  | cons q qs ih =>
    have hq : q.inline_data = none := h q (List.mem_cons_self q qs)
    simp only [List.cons_append, scan_parts, hq]
    exact ih (fun r hr => h r (List.mem_cons_of_mem q hr))

/-- If no part carries inline data the loop reports no image found. -/
theorem scan_parts_none (d : Bytes → Option Img) (o : String)
    (parts : List Part) (h : ∀ q ∈ parts, q.inline_data = none) :
    scan_parts d o parts = (Outcome.noImageFound, []) := by
  have hx := scan_parts_skip d o parts [] h
  rw [List.append_nil] at hx
  exact hx

/-- A head part with decodable inline data is saved and the loop breaks. -/
theorem scan_parts_first (d : Bytes → Option Img) (o : String)
    (p : Part) (post : List Part) (b : Bytes) (img : Img)
    (hp : p.inline_data = some b) (hd : d b = some img) :
    scan_parts d o (p :: post) = (Outcome.savedImage, [(o, img)]) := by
  simp [scan_parts, hp, hd]

/-- When load and call succeed and the first candidate has parts, the
transformer is exactly the part-scanning loop. -/
theorem add_fax_artifacts_eq_scan (env : TransformEnv) (inP outP : String)
    (img0 : Img) (resp : Response) (cand : Candidate) (rest : List Candidate)
    (hload : env.load = LoadResult.ok img0)
    (hcall : env.call = Except.ok resp)
    (hcands : resp.candidates = cand :: rest)
    (hne : cand.content.parts ≠ []) :
    add_fax_artifacts env inP outP = scan_parts env.decode outP cand.content.parts := by
  unfold add_fax_artifacts
  rw [hload, hcall]
  simp only [hcands]
  cases hps : cand.content.parts with
  | nil => exact absurd hps hne
  | cons p ps => rfl

/-- When the first candidate has an empty parts list the transformer reports
no candidates and writes nothing. -/
theorem add_fax_artifacts_no_parts (env : TransformEnv) (inP outP : String)
    (img0 : Img) (resp : Response) (cand : Candidate) (rest : List Candidate)
    (hload : env.load = LoadResult.ok img0)
    (hcall : env.call = Except.ok resp)
    (hcands : resp.candidates = cand :: rest)
    (hps : cand.content.parts = []) :
    add_fax_artifacts env inP outP = (Outcome.noCandidates, []) := by
  unfold add_fax_artifacts
  rw [hload, hcall]
  simp only [hcands, hps]

/-- The scanning loop writes exactly one file (at the output path) when it
saves, and none otherwise. -/
theorem scan_parts_writes (d : Bytes → Option Img) (o : String)
    (parts : List Part) :
    ((scan_parts d o parts).1 = Outcome.savedImage ∧
      ∃ img, (scan_parts d o parts).2 = [(o, img)]) ∨
    ((scan_parts d o parts).1 ≠ Outcome.savedImage ∧
      (scan_parts d o parts).2 = []) := by
  induction parts with
  | nil =>
    right
    constructor
    · intro h
      simp [scan_parts] at h
    · rfl
  | cons p rest ih =>
    cases hp : p.inline_data with
    | none =>
      simp only [scan_parts, hp]
      exact ih
    | some b =>
      cases hd : d b with
      | none =>
        right
        constructor
        · intro h
          simp [scan_parts, hp, hd] at h
        · simp [scan_parts, hp, hd]
      | some img =>
        left
        refine ⟨?_, img, ?_⟩ <;> simp [scan_parts, hp, hd]

/-- C1: for every service response, the transformer scans the parts of the
first candidate in order; the first part with inline binary data is decoded
and written to the output path exactly once, all later parts are ignored,
and when no part carries inline data the failure is reported with no file
written. Both script variants behave identically. -/
theorem C1_first_inline_part_wins (env : TransformEnv) (inP outP : String)
    (img0 : Img) (resp : Response) (cand : Candidate) (rest : List Candidate)
    (hload : env.load = LoadResult.ok img0)
    (hcall : env.call = Except.ok resp)
    (hcands : resp.candidates = cand :: rest) :
    (∀ (pre : List Part) (p : Part) (post : List Part) (b : Bytes) (img : Img),
        cand.content.parts = pre ++ p :: post →
        (∀ q ∈ pre, q.inline_data = none) →
        p.inline_data = some b →
        env.decode b = some img →
        add_fax_artifacts env inP outP = (Outcome.savedImage, [(outP, img)]) ∧
        add_photocopy_artifacts env inP outP = (Outcome.savedImage, [(outP, img)])) ∧
    ((∀ q ∈ cand.content.parts, q.inline_data = none) →
        (add_fax_artifacts env inP outP).1 ≠ Outcome.savedImage ∧
        (add_fax_artifacts env inP outP).2 = [] ∧
        (add_photocopy_artifacts env inP outP).2 = []) := by
  constructor
  · intro pre p post b img hparts hpre hp hdec
    have hne : cand.content.parts ≠ [] := by
      rw [hparts]
      simp
    have hfax : add_fax_artifacts env inP outP =
        scan_parts env.decode outP cand.content.parts :=
      add_fax_artifacts_eq_scan env inP outP img0 resp cand rest hload hcall hcands hne
    rw [add_photocopy_eq_add_fax, hfax, hparts,
      scan_parts_skip env.decode outP pre (p :: post) hpre,
      scan_parts_first env.decode outP p post b img hp hdec]
    exact ⟨rfl, rfl⟩
  · intro hall
    rw [add_photocopy_eq_add_fax]
    cases hps : cand.content.parts with
    | nil =>
      rw [add_fax_artifacts_no_parts env inP outP img0 resp cand rest hload hcall hcands hps]
      refine ⟨?_, rfl, rfl⟩
      intro h
      exact Outcome.noConfusion h
    | cons p ps =>
      have hne : cand.content.parts ≠ [] := by rw [hps]; simp
      have hfax : add_fax_artifacts env inP outP =
          scan_parts env.decode outP cand.content.parts :=
        add_fax_artifacts_eq_scan env inP outP img0 resp cand rest hload hcall hcands hne
      rw [hfax, scan_parts_none env.decode outP cand.content.parts hall]
      refine ⟨?_, rfl, rfl⟩
      intro h
      exact Outcome.noConfusion h

/-- C1 witness: a concrete response with a text part, then an inline part
decoding to image 42, then a further inline part; the first inline part is
the one written. -/
theorem C1_first_inline_part_wins_witness :
    add_fax_artifacts envInline "in.jpg" "out.jpg" =
      (Outcome.savedImage, [("out.jpg", 42)]) ∧
    add_photocopy_artifacts envInline "in.jpg" "out.jpg" =
      (Outcome.savedImage, [("out.jpg", 42)]) :=
  (C1_first_inline_part_wins envInline "in.jpg" "out.jpg" 7 respW
      { content := { parts := [textPart, imgPart, extraPart] } } []
      rfl rfl rfl).1
    [textPart] imgPart [extraPart] [1, 2] 42 rfl
    (by decide) rfl (by decide)

/-- Input file not found: the transformer reports and returns. -/
theorem add_fax_notFound (env : TransformEnv) (inP outP : String)
    (h : env.load = LoadResult.notFound) :
    add_fax_artifacts env inP outP = (Outcome.inputNotFound, []) := by
  unfold add_fax_artifacts
  simp only [h]

/-- Input image failed to load: the transformer reports and returns. -/
theorem add_fax_loadError (env : TransformEnv) (inP outP : String)
    (h : env.load = LoadResult.loadError) :
    add_fax_artifacts env inP outP = (Outcome.inputLoadError, []) := by
  unfold add_fax_artifacts
  simp only [h]

/-- An exception during the remote call is caught by the outer handler. -/
theorem add_fax_callError (env : TransformEnv) (inP outP : String)
    (img0 : Img) (e : String)
    (hl : env.load = LoadResult.ok img0) (hc : env.call = Except.error e) :
    add_fax_artifacts env inP outP = (Outcome.unexpectedError, []) := by
  unfold add_fax_artifacts
  simp only [hl, hc]

/-- A response with no candidates is reported; nothing is written. -/
theorem add_fax_noCandidates (env : TransformEnv) (inP outP : String)
    (img0 : Img) (resp : Response)
    (hl : env.load = LoadResult.ok img0) (hc : env.call = Except.ok resp)
    (hcs : resp.candidates = []) :
    add_fax_artifacts env inP outP = (Outcome.noCandidates, []) := by
  unfold add_fax_artifacts
  simp only [hl, hc, hcs]

/-- C3: every transformer invocation either succeeds having written exactly
one file, at the output path, or fails (input decode error, service
exception, empty response, undecodable or missing inline data) having
written no file at all. -/
theorem C3_at_most_one_write (env : TransformEnv) (inP outP : String) :
    ((add_photocopy_artifacts env inP outP).1 = Outcome.savedImage ∧
      ∃ img, (add_photocopy_artifacts env inP outP).2 = [(outP, img)]) ∨
    ((add_photocopy_artifacts env inP outP).1 ≠ Outcome.savedImage ∧
      (add_photocopy_artifacts env inP outP).2 = []) := by
  rw [add_photocopy_eq_add_fax]
  cases hl : env.load with
  | notFound =>
    right
    rw [add_fax_notFound env inP outP hl]
    exact ⟨fun h => Outcome.noConfusion h, rfl⟩
  | loadError =>
    right
    rw [add_fax_loadError env inP outP hl]
    exact ⟨fun h => Outcome.noConfusion h, rfl⟩
  | ok img0 =>
    cases hc : env.call with
    | error e =>
      right
      rw [add_fax_callError env inP outP img0 e hl hc]
      exact ⟨fun h => Outcome.noConfusion h, rfl⟩
    | ok resp =>
      cases hcs : resp.candidates with
      | nil =>
        right
        rw [add_fax_noCandidates env inP outP img0 resp hl hc hcs]
        exact ⟨fun h => Outcome.noConfusion h, rfl⟩
      | cons cand crest =>
        cases hps : cand.content.parts with
        | nil =>
          right
          rw [add_fax_artifacts_no_parts env inP outP img0 resp cand crest hl hc hcs hps]
          exact ⟨fun h => Outcome.noConfusion h, rfl⟩
        | cons p ps =>
          rw [add_fax_artifacts_eq_scan env inP outP img0 resp cand crest hl hc hcs
            (by rw [hps]; simp), hps]
          exact scan_parts_writes env.decode outP (p :: ps)

/-- First component of the batch accumulation loop: the call list grows by
one (input, output) pair per processed entry, whatever the transformer
returns. -/
theorem foldl_pair_fst {α : Type} (f : α → String × String)
    (g : α → List (String × Img)) (l : List α) :
    ∀ acc : List (String × String) × List (String × Img),
    (l.foldl (fun a e => (a.1 ++ [f e], a.2 ++ g e)) acc).1 = acc.1 ++ l.map f := by
  induction l with
  | nil =>
    intro acc
    simp
  | cons e es ih =>
    intro acc
    simp only [List.foldl_cons, List.map_cons, ih]
    simp

/-- The `image_files` accumulation loop is the filter by the image
condition, in listing order. -/
theorem select_images_eq_filter (entries : List Entry) :
    select_images entries = entries.filter is_image_entry := by
  have key : ∀ (l : List Entry) (acc : List Entry),
      l.foldl (fun acc e => if is_image_entry e then acc ++ [e] else acc) acc =
        acc ++ l.filter is_image_entry := by
    intro l
    induction l with
    | nil =>
      intro acc
      simp
    | cons e es ih =>
      intro acc
      by_cases he : is_image_entry e = true
      · simp [List.foldl_cons, he, ih, List.filter_cons]
      · simp [List.foldl_cons, he, ih, List.filter_cons]
  have hx := key entries []
  simpa [select_images] using hx

/-- On a valid input directory, the fax batch driver calls the transformer
once per selected file, pairing each input path with the derived output
path, independently of what each call returns. -/
theorem process_folder_fax_calls (env : String → TransformEnv)
    (fs : FolderState) (i o : String)
    (h1 : fs.input_exists = true) (h2 : fs.input_is_dir = true) :
    (process_folder_fax env fs i o).calls =
      (select_images fs.entries).map
        (fun e => (joinPath i e.name, joinPath o (fax_output_filename e.name))) := by
  unfold process_folder_fax
  rw [h1, h2]
  simp only [Bool.not_true, Bool.or_self, Bool.false_eq_true, if_false]
  cases hE : select_images fs.entries with
  | nil => simp
  | cons a l =>
    simp only [List.isEmpty_cons, if_false, Bool.false_eq_true]
    have hfold := foldl_pair_fst
      (fun e => (joinPath i e.name, joinPath o (fax_output_filename e.name)))
      (fun e => (add_fax_artifacts (env (joinPath i e.name)) (joinPath i e.name)
        (joinPath o (fax_output_filename e.name))).2)
      (a :: l) ([], [])
    simp only [List.nil_append] at hfold
    exact hfold

/-- C2: on a valid input directory the batch loop invokes the transformer
exactly once per matching file, with the derived path pair, and the call
sequence does not depend on the per-file transformer environments: no
per-file failure (decode error, service exception, missing image) can stop
or alter the sequence of attempts. -/
theorem C2_batch_attempts_all_files (env env2 : String → TransformEnv)
    (fs : FolderState) (i o : String)
    (h1 : fs.input_exists = true) (h2 : fs.input_is_dir = true) :
    (process_folder_fax env fs i o).calls =
      (select_images fs.entries).map
        (fun e => (joinPath i e.name, joinPath o (fax_output_filename e.name))) ∧
    (process_folder_fax env fs i o).calls = (process_folder_fax env2 fs i o).calls := by
  refine ⟨process_folder_fax_calls env fs i o h1 h2, ?_⟩
  rw [process_folder_fax_calls env fs i o h1 h2,
    process_folder_fax_calls env2 fs i o h1 h2]

/-- C2 witness: with an environment in which every call fails (missing
input file), both files of a two-file folder are still attempted, in
order. -/
theorem C2_batch_attempts_all_files_witness :
    (process_folder_fax envFail fsTwo "in" "out").calls =
      [("in/a.jpg", "out/a_fax_effect.jpg"), ("in/b.PNG", "out/b_fax_effect.PNG")] := by
  have h := C2_batch_attempts_all_files envFail envFail fsTwo "in" "out" rfl rfl
  rw [h.1]
  decide

/-- Appending strings appends their character lists. -/
theorem string_mk_append (a b : List Char) :
    String.mk a ++ String.mk b = String.mk (a ++ b) := rfl

/-- The stem/suffix decomposition loses no characters: stem and suffix
concatenate back to the original name. -/
theorem pyStem_append_pySuffix (n : String) : pyStem n ++ pySuffix n = n := by
  obtain ⟨d⟩ := n
  unfold pyStem pySuffix
  cases h : lastIdxOf '.' d with
  | none =>
    simp only [h]
    show String.mk d ++ String.mk [] = String.mk d
    rw [string_mk_append, List.append_nil]
  | some i =>
    simp only [h]
    by_cases hc : 0 < i ∧ i + 1 < d.length
    · rw [if_pos hc, if_pos hc, string_mk_append, List.take_append_drop]
    · rw [if_neg hc, if_neg hc]
      show String.mk d ++ String.mk [] = String.mk d
      rw [string_mk_append, List.append_nil]

/-- C4: the fax batch variant derives output names as
stem ++ "_fax_effect" ++ original extension; the decomposition preserves
every character of the name (hence its case), and on the concrete folder
containing `photo.JPG` the single derived output path is
`out/photo_fax_effect.JPG`. -/
theorem C4_fax_output_filename_derivation :
    (∀ n, fax_output_filename n = pyStem n ++ "_fax_effect" ++ pySuffix n) ∧
    (∀ n, pyStem n ++ pySuffix n = n) ∧
    fax_output_filename "photo.JPG" = "photo_fax_effect.JPG" ∧
    (process_folder_fax envFail fsPhoto "in" "out").calls =
      [("in/photo.JPG", "out/photo_fax_effect.JPG")] := by
  refine ⟨fun n => rfl, pyStem_append_pySuffix, by decide, by decide⟩

/-- C5: the batch drivers select exactly the entries that are regular files
whose lowercased extension is in the fixed image-extension set; a folder
with one matching file and one `.txt` file yields exactly the matching file,
and exactly one transformer call. -/
theorem C5_image_file_selection :
    (∀ entries : List Entry, select_images entries = entries.filter is_image_entry) ∧
    (∀ (entries : List Entry) (e : Entry),
        e ∈ select_images entries ↔
          e ∈ entries ∧ e.is_file = true ∧
            pyLower (pySuffix e.name) ∈ image_extensions) ∧
    select_images fsMix.entries = [{ name := "photo.JPG", is_file := true }] ∧
    (process_folder_fax envFail fsMix "in" "out").calls =
      [("in/photo.JPG", "out/photo_fax_effect.JPG")] := by
  refine ⟨select_images_eq_filter, ?_, by decide, by decide⟩
  intro entries e
  rw [select_images_eq_filter, List.mem_filter]
  unfold is_image_entry
  simp [and_assoc]

/-- C6 counterexample: on a folder whose single image file is processed
(one transformer call), the Python function still returns `None`, not the
count of processed files: the claimed contract
`run(input_dir, output_dir) -> count_processed` fails. -/
theorem C6_returns_none_counterexample :
    (process_folder_fax envFail fsPhoto "in" "out").calls.length = 1 ∧
    (process_folder_fax envFail fsPhoto "in" "out").retval = none ∧
    (process_folder_fax envFail fsPhoto "in" "out").retval ≠
      some (process_folder_fax envFail fsPhoto "in" "out").calls.length := by
  refine ⟨by decide, by decide, by decide⟩

/-- C6 (amended): both batch drivers return no value (`None`) on every
invocation; the number of files processed is only reported via console
output, never returned. -/
theorem C6_retval_always_none (env : String → TransformEnv)
    (fs : FolderState) (i o : String) :
    (process_folder_fax env fs i o).retval = none ∧
    (process_folder_photocopy env fs i o).retval = none := by
  constructor
  · unfold process_folder_fax
    split
    · rfl
    · dsimp only
      split
      · rfl
      · rfl
  · unfold process_folder_photocopy
    split
    · rfl
    · dsimp only
      split
      · rfl
      · rfl

/-- C7: when the input folder does not exist or is not a directory, both
batch drivers report the condition and do no work: no transformer call, no
write, and the output directory is not even created. -/
theorem C7_invalid_input_no_work (env : String → TransformEnv)
    (fs : FolderState) (i o : String)
    (h : fs.input_exists = false ∨ fs.input_is_dir = false) :
    process_folder_fax env fs i o =
      { retval := none, calls := [], writes := [], mkdir_output := false,
        invalid_input_reported := true } ∧
    process_folder_photocopy env fs i o =
      { retval := none, calls := [], writes := [], mkdir_output := false,
        invalid_input_reported := true } := by
  have hc : (!fs.input_exists || !fs.input_is_dir) = true := by
    cases h with
    | inl h => simp [h]
    | inr h => simp [h]
  constructor
  · unfold process_folder_fax
    rw [hc]
    rfl
  · unfold process_folder_photocopy
    rw [hc]
    rfl

/-- C7 witness: a concrete missing input folder yields the empty run. -/
theorem C7_invalid_input_no_work_witness :
    process_folder_fax envFail fsMissing "in" "out" =
      { retval := none, calls := [], writes := [], mkdir_output := false,
        invalid_input_reported := true } :=
  (C7_invalid_input_no_work envFail fsMissing "in" "out" (Or.inl rfl)).1

/-- C8: the effect suffix differs between variants: for the same input name
`photo.jpg`, the single-file photocopy script derives
`photo_photocopy_effect.jpg` while the batch photocopy driver derives
`photo_photocopy.jpg`, two distinct names. -/
theorem C8_suffix_mismatch_across_variants :
    photocopy_single_output "photo.jpg" = "photo_photocopy_effect.jpg" ∧
    photocopy_output_filename "photo.jpg" = "photo_photocopy.jpg" ∧
    photocopy_single_output "photo.jpg" ≠ photocopy_output_filename "photo.jpg" := by
  refine ⟨by decide, by decide, by decide⟩

/-- C9: a regular file named exactly like a recognized extension (leading
dot only, e.g. `.jpg`) has empty `suffix`, is excluded by the filter for
every extension in the set, and the batch driver on such a folder makes no
transformer call and no write. -/
theorem C9_dotfile_excluded :
    image_extensions.all
      (fun e => (pySuffix e == "") &&
        (select_images [{ name := e, is_file := true }]).isEmpty) = true ∧
    ".jpg" ∈ image_extensions ∧
    (process_folder_fax envFail fsDot "in" "out").calls = [] ∧
    (process_folder_fax envFail fsDot "in" "out").writes = [] := by
  refine ⟨by decide, by decide, by decide, by decide⟩

/-- C10: the startup credential check raises exactly when the environment
variable is absent or set to the empty string, and proceeds for every
non-empty value. -/
theorem C10_empty_api_key_aborts (v : Option String) :
    (api_key_check_raises v = true ↔ v = none ∨ v = some "") ∧
    (api_key_check_raises v = false ↔ ∃ s, v = some s ∧ s ≠ "") := by
  cases v with
  | none => simp [api_key_check_raises]
  | some s =>
    refine ⟨?_, ?_⟩ <;> simp [api_key_check_raises]

end Datagen
